import Mathlib

/-!
Shallow embedding of the request-orchestration core of `rag-agent-workbench`
(backend FastAPI service): the LangGraph chat pipeline
(`app/services/chat/graph.py`), the chat response cache (`app/core/cache.py`),
the metrics aggregator (`app/core/metrics.py`) and the two chat endpoints
(`app/routers/chat.py`).

Python floats are modelled as rationals (`ℚ`), Python ints as `Int`,
strings as `String`.  Dictionary fields that may be absent are modelled as
`Option`; Python's truthiness-based `x or default` idiom is modelled by the
`pyOr*` helpers below (absent / empty-string / zero are falsy).
External capabilities (Pinecone vector search, the Tavily web-search tool,
the Groq LLM) are parameters returning `Except PyError _`; a Python
exception raised by a capability is an `Except.error`.
-/

namespace RagWorkbench

/-- Python `x or default` for an optional string: `None` and `""` are falsy. -/
def pyOrS (x : Option String) (d : String) : String :=
  match x with
  | some s => if s = "" then d else s
  | none => d

/-- Python `x or default` for an optional rational (float): `None` and `0.0` are falsy. -/
def pyOrQ (x : Option ℚ) (d : ℚ) : ℚ :=
  match x with
  | some v => if v = 0 then d else v
  | none => d

/-- Python `x or default` for an optional integer: `None` and `0` are falsy. -/
def pyOrZ (x : Option Int) (d : Int) : Int :=
  match x with
  | some v => if v = 0 then d else v
  | none => d

/-- Errors raised by Python code in the embedded fragment: a typed
`UpstreamServiceError(service, message)` (from `app/core/errors.py`) or any
other exception, carried as a message. -/
inductive PyError where
  | upstream (service : String) (message : String)
  | other (message : String)
deriving DecidableEq, Repr

/-- True exactly for `UpstreamServiceError` values. -/
def isUpstreamError : PyError → Bool
  | .upstream _ _ => true
  | .other _ => false

/-- The configuration fields of `app/core/config.py` consumed by the embedded
fragment.  `CACHE_ENABLED` models `getattr(settings, "CACHE_ENABLED", True)`
read once in `app/core/cache.py`. -/
structure Settings where
  PINECONE_NAMESPACE : String
  RAG_DEFAULT_TOP_K : Int
  RAG_MIN_SCORE : ℚ
  RAG_MAX_WEB_RESULTS : Int
  TAVILY_API_KEY : String
  CACHE_ENABLED : Bool
deriving DecidableEq, Repr

/-- Embedding of `is_tavily_configured` (`app/services/tools/tavily_tool.py`):
`bool(settings.TAVILY_API_KEY)`. -/
def is_tavily_configured (settings : Settings) : Bool :=
  settings.TAVILY_API_KEY ≠ ""

/-- A source snippet as built by the graph nodes and returned in responses:
keys `source`, `title`, `url`, `score`, `chunk_text`. -/
structure Snippet where
  source : String
  title : String
  url : String
  score : ℚ
  chunk_text : String
deriving DecidableEq, Repr

/-- One conversation-history message (`{role, content}`). -/
structure ChatMsg where
  role : String
  content : String
deriving DecidableEq, Repr

/-- The `timings` dictionary threaded through the graph state; each of the
four keys may be absent. -/
structure Timings where
  retrieve_ms : Option ℚ
  web_ms : Option ℚ
  generate_ms : Option ℚ
  total_ms : Option ℚ
deriving DecidableEq, Repr

/-- The `ChatState` TypedDict as it enters the graph (the `initial_state`
dict built by the router, or any partially-populated state): fields that the
router may leave unset, or set to a falsy value, are `Option`s. -/
structure ChatInput where
  query : String
  «namespace» : Option String
  top_k : Option Int
  min_score : Option ℚ
  use_web_fallback : Option Bool
  max_web_results : Option Int
  chat_history : List ChatMsg
deriving DecidableEq, Repr

/-- The `ChatState` TypedDict after `normalize_input` has run: all fields the
later nodes read are present.  `use_web_fallback` is stored as the boolean the
code reads back via `bool(state.get("use_web_fallback"))` (absent ⇒ `False`);
`top_score` and `answer` are stored with the values `state.get` yields before
they are first assigned (`0.0` and `""`). -/
structure ChatState where
  query : String
  «namespace» : String
  top_k : Int
  min_score : ℚ
  use_web_fallback : Bool
  max_web_results : Int
  chat_history : List ChatMsg
  retrieved : List Snippet
  web_results : List Snippet
  timings : Timings
  tavily_available : Bool
  web_fallback_used : Bool
  top_score : ℚ
  answer : String
deriving DecidableEq, Repr

/-- Embedding of `normalize_input` (graph.py): fill defaults from settings via Python `or`
(so falsy request values are also replaced), drop history entries whose
`content` is empty, reset `retrieved`/`web_results`, record Tavily
availability. -/
def normalize_input (settings : Settings) (state : ChatInput) : ChatState :=
  { query := state.query
    «namespace» := pyOrS state.«namespace» settings.PINECONE_NAMESPACE
    top_k := pyOrZ state.top_k settings.RAG_DEFAULT_TOP_K
    min_score := pyOrQ state.min_score settings.RAG_MIN_SCORE
    use_web_fallback := state.use_web_fallback.getD false
    max_web_results := pyOrZ state.max_web_results settings.RAG_MAX_WEB_RESULTS
    chat_history := state.chat_history.filter (fun m => m.content ≠ "")
    retrieved := []
    web_results := []
    timings := ⟨none, none, none, none⟩
    tavily_available := is_tavily_configured settings
    web_fallback_used := false
    top_score := 0
    answer := "" }

/-- A raw Pinecone hit: `_score` (modelled as `underscoreScore`), `score`,
and the `fields` map restricted to the keys the code reads (`textField`
models `fields[settings.PINECONE_TEXT_FIELD]`). -/
structure PineconeHit where
  underscoreScore : Option ℚ
  score : Option ℚ
  textField : Option String
  title : Option String
  source : Option String
  url : Option String
deriving DecidableEq, Repr

/-- Score extraction `float(hit.get("_score") or hit.get("score") or 0.0)`. -/
def hitScore (h : PineconeHit) : ℚ :=
  pyOrQ h.underscoreScore (pyOrQ h.score 0)

/-- Map one Pinecone hit to a source snippet, exactly as the loop body of
`retrieve_context` does. -/
def hitToSnippet (h : PineconeHit) : Snippet :=
  { source := pyOrS h.source "unknown"
    title := pyOrS h.title ""
    url := pyOrS h.url ""
    score := hitScore h
    chunk_text := pyOrS h.textField "" }

/-- The Pinecone search capability
(`pinecone_store.search(namespace, query_text, top_k, ...)`); an
`Except.error` is an exception raised by the call. -/
def PineconeFn : Type :=
  String → String → Int → Except PyError (List PineconeHit)

/-- Embedding of `retrieve_context` (graph.py): call Pinecone search — NOTE the source has
no try/except here, so a raised exception propagates unchanged — then map the
hits to snippets and fold the running maximum score starting from `0.0`.
`elapsedMs` stands for the measured wall-clock duration. -/
def retrieve_context (pinecone : PineconeFn) (elapsedMs : ℚ)
    (state : ChatState) : Except PyError ChatState :=
  match pinecone state.«namespace» state.query state.top_k with
  | .error e => .error e
  | .ok raw_hits =>
      .ok { state with
            timings := { state.timings with retrieve_ms := some elapsedMs }
            retrieved := raw_hits.map hitToSnippet
            top_score := raw_hits.foldl (fun acc h => max acc (hitScore h)) 0 }

/-- Embedding of `decide_next` (graph.py): set `web_fallback_used` to true iff web fallback
was requested, Tavily is available, and retrieval is empty or its top score is
strictly below the threshold. -/
def decide_next (state : ChatState) : ChatState :=
  let use_web := state.use_web_fallback
  let tavily_available := state.tavily_available
  let retrieved := state.retrieved
  let min_score := state.min_score
  let top_score := state.top_score
  let should_use_web :=
    if use_web && tavily_available then
      if retrieved.isEmpty then true
      else if top_score < min_score then true
      else false
    else false
  { state with web_fallback_used := should_use_web }

/-- Embedding of `_route_after_decide_next` (graph.py): route to the web-search node iff
`web_fallback_used` is set. -/
def routeAfterDecideNext (state : ChatState) : Bool :=
  state.web_fallback_used

/-- One raw Tavily result dictionary (keys the code reads). -/
structure WebItem where
  url : Option String
  title : Option String
  content : Option String
  snippet : Option String
deriving DecidableEq, Repr

/-- The Tavily tool as obtained from `get_tavily_tool(max_results)`:
`none` when the tool is unavailable (API key missing or import failure),
otherwise a function from the query to results. -/
def TavilyToolFn : Type :=
  String → Except PyError (List WebItem)

/-- Map one Tavily result into a pseudo-doc snippet (score fixed at `0.0`),
as the loop body of `web_search` does. -/
def webItemToSnippet (item : WebItem) : Snippet :=
  let url := pyOrS item.url ""
  let title := pyOrS (some (pyOrS item.title "")) url
  { source := "web"
    title := title
    url := url
    score := 0
    chunk_text := pyOrS item.content (pyOrS item.snippet "") }

/-- Models `timings.setdefault("web_ms", 0.0)`. -/
def setdefaultWebMs (t : Timings) : Timings :=
  { t with web_ms := some (t.web_ms.getD 0) }

/-- Embedding of `web_search` (graph.py).  `getTool` models `get_tavily_tool`; when it
returns `None` the node records zero web results and returns normally.  When
the tool call raises, the node raises `UpstreamServiceError("Tavily", ...)`.
`elapsedMs` stands for the measured wall-clock duration. -/
def web_search (getTool : Int → Option TavilyToolFn) (elapsedMs : ℚ)
    (state : ChatState) : Except PyError ChatState :=
  let max_results := pyOrZ (some state.max_web_results) 5
  match getTool max_results with
  | none =>
      .ok { state with
            timings := setdefaultWebMs state.timings
            web_results := [] }
  | some tool =>
      match tool state.query with
      | .error _ =>
          .error (.upstream "Tavily"
            "Upstream Tavily web search failed. Try again later or disable web fallback.")
      | .ok results =>
          .ok { state with
                timings := { state.timings with web_ms := some elapsedMs }
                web_results := results.map webItemToSnippet }

/-- The answer-generation capability.  The source builds a LangChain message
list with `build_rag_messages(chat_history, question, sources)` and invokes
the Groq-backed model on it; we model the composed call as one capability on
the same three arguments, returning the answer text. -/
def LlmFn : Type :=
  List ChatMsg → String → List Snippet → Except PyError String

/-- Embedding of `generate_answer` (graph.py): invoke the LLM on the conversation history,
query and all snippets (`retrieved ++ web_results`); a raised exception
becomes `UpstreamServiceError("Groq", ...)`.  `elapsedMs` stands for the
measured wall-clock duration. -/
def generate_answer (llm : LlmFn) (elapsedMs : ℚ)
    (state : ChatState) : Except PyError ChatState :=
  match llm state.chat_history state.query (state.retrieved ++ state.web_results) with
  | .error _ =>
      .error (.upstream "Groq"
        "Upstream Groq chat completion failed. Please try again later.")
  | .ok text =>
      .ok { state with
            timings := { state.timings with generate_ms := some elapsedMs }
            answer := text }

/-- Embedding of `format_response` (graph.py): a no-op node. -/
def format_response (state : ChatState) : ChatState :=
  state

/-- The compiled LangGraph pipeline (`get_chat_graph`):
normalize → retrieve → decide → (web_search when routed) → generate → format.
A node that raises aborts the run with that error. -/
def runChatGraph (settings : Settings) (pinecone : PineconeFn)
    (getTool : Int → Option TavilyToolFn) (llm : LlmFn)
    (elapsedRetrieveMs elapsedWebMs elapsedGenerateMs : ℚ)
    (input : ChatInput) : Except PyError ChatState :=
  let s1 := normalize_input settings input
  match retrieve_context pinecone elapsedRetrieveMs s1 with
  | .error e => .error e
  | .ok s2 =>
      let s3 := decide_next s2
      if routeAfterDecideNext s3 then
        match web_search getTool elapsedWebMs s3 with
        | .error e => .error e
        | .ok s4 =>
            (generate_answer llm elapsedGenerateMs s4).map format_response
      else
        (generate_answer llm elapsedGenerateMs s3).map format_response

/-! ## Response models (`app/schemas/chat.py`, `app/routers/chat.py`) -/

/-- The `ChatTimings` response model: all four durations present
(defaulting to `0.0`). -/
structure ChatTimingsR where
  retrieve_ms : ℚ
  web_ms : ℚ
  generate_ms : ℚ
  total_ms : ℚ
deriving DecidableEq, Repr

/-- The `ChatResponse` model (tracing metadata omitted: it is constant
per-process and irrelevant to the embedded claims). `SourceHit` has the same
fields as a snippet, so it is represented by `Snippet`. -/
structure ChatResponseR where
  answer : String
  sources : List Snippet
  timings : ChatTimingsR
deriving DecidableEq, Repr

/-- The `SourceHit(...)` construction in `_build_chat_response`: every field
goes through `x or default`. -/
def toSourceHit (s : Snippet) : Snippet :=
  { source := pyOrS (some s.source) "unknown"
    title := pyOrS (some s.title) ""
    url := pyOrS (some s.url) ""
    score := pyOrQ (some s.score) 0
    chunk_text := pyOrS (some s.chunk_text) "" }

/-- Embedding of `_build_chat_response` (routers/chat.py): timings default to `0.0`
per key, sources are `retrieved ++ web_results` coerced to `SourceHit`,
answer defaults to `""`. -/
def buildChatResponse (state : ChatState) : ChatResponseR :=
  { answer := pyOrS (some state.answer) ""
    sources := (state.retrieved ++ state.web_results).map toSourceHit
    timings :=
      { retrieve_ms := pyOrQ state.timings.retrieve_ms 0
        web_ms := pyOrQ state.timings.web_ms 0
        generate_ms := pyOrQ state.timings.generate_ms 0
        total_ms := pyOrQ state.timings.total_ms 0 } }

/-! ## Metrics aggregator (`app/core/metrics.py`) -/

/-- The four timing fields (`_TIMING_FIELDS`). -/
inductive TimingField where
  | retrieve_ms
  | web_ms
  | generate_ms
  | total_ms
deriving DecidableEq, Repr

/-- One stored timing sample: a value for each of the four fields. -/
structure TimingSample where
  retrieve_ms : ℚ
  web_ms : ℚ
  generate_ms : ℚ
  total_ms : ℚ
deriving DecidableEq, Repr

/-- Field lookup in a stored sample. -/
def TimingSample.get (s : TimingSample) : TimingField → ℚ
  | .retrieve_ms => s.retrieve_ms
  | .web_ms => s.web_ms
  | .generate_ms => s.generate_ms
  | .total_ms => s.total_ms

/-- Models `sample = ...` in `record_chat_timings`:
extract a full sample from a possibly-partial mapping. -/
def extractSample (timings : TimingField → Option ℚ) : TimingSample :=
  { retrieve_ms := (timings .retrieve_ms).getD 0
    web_ms := (timings .web_ms).getD 0
    generate_ms := (timings .generate_ms).getD 0
    total_ms := (timings .total_ms).getD 0 }

/-- Value of `_TIMING_BUFFER_SIZE`. -/
def TIMING_BUFFER_SIZE : ℕ := 20

/-- The module-level metrics state: per-path request/error counters
(`defaultdict(int)` modelled as total functions), the ring buffer of recent
samples (oldest first, as `list(_timing_samples)` yields it), the running
per-field sums and the running count. -/
structure MetricsState where
  request_counts : String → ℕ
  error_counts : String → ℕ
  samples : List TimingSample
  sums : TimingSample
  count : ℕ

/-- The initial (import-time) metrics state. -/
def initMetrics : MetricsState :=
  { request_counts := fun _ => 0
    error_counts := fun _ => 0
    samples := []
    sums := ⟨0, 0, 0, 0⟩
    count := 0 }

/-- Pointwise sum of two samples (the `for field, value: sums[field] += value`
loop). -/
def TimingSample.add (a b : TimingSample) : TimingSample :=
  ⟨a.retrieve_ms + b.retrieve_ms, a.web_ms + b.web_ms,
   a.generate_ms + b.generate_ms, a.total_ms + b.total_ms⟩

/-- Embedding of `record_chat_timings` (metrics.py): append the extracted sample to the
`deque(maxlen=20)` — dropping from the left when the buffer is full — and
update the running sums and count. -/
def record_chat_timings (timings : TimingField → Option ℚ)
    (st : MetricsState) : MetricsState :=
  let sample := extractSample timings
  let buf := st.samples ++ [sample]
  { st with
    samples := buf.drop (buf.length - TIMING_BUFFER_SIZE)
    sums := st.sums.add sample
    count := st.count + 1 }

/-- Embedding of `metrics_middleware` (metrics.py) as it affects the counters for one
request: the request counter for the path is always incremented; the error
counter is incremented when the handler raised or the produced status is
`>= 400` (any `PyError` from the chat handlers yields a 502/500 response via
the global exception handlers, or propagates as an exception — in every case
exactly one error increment). -/
def metricsMiddlewareRecord (path : String) (isError : Bool)
    (st : MetricsState) : MetricsState :=
  { st with
    request_counts := fun p =>
      if p = path then st.request_counts p + 1 else st.request_counts p
    error_counts := fun p =>
      if isError && p = path then st.error_counts p + 1 else st.error_counts p }

/-- Python banker's rounding (`round` / `int(round(x))`): nearest integer,
ties to even. -/
def pyRound (x : ℚ) : ℤ :=
  let f : ℤ := ⌊x⌋
  let r : ℚ := x - f
  if r < 1 / 2 then f
  else if 1 / 2 < r then f + 1
  else if f % 2 = 0 then f else f + 1

/-- Embedding of `_percentile` (metrics.py): `0.0` on an empty list, otherwise the element
of the ascending sort at index
`max(0, min(len - 1, int(round(p / 100 * (len - 1)))))`. -/
def pyPercentile (values : List ℚ) (p : ℚ) : ℚ :=
  if values.isEmpty then 0
  else
    let values_sorted := values.insertionSort (· ≤ ·)
    let n : ℤ := values_sorted.length
    let k : ℤ := max 0 (min (n - 1) (pyRound (p / 100 * (n - 1))))
    values_sorted.getD k.toNat 0

/-- Cache hit/miss counters as returned by `get_cache_stats`. -/
structure CacheStats where
  search_hits : ℕ
  search_misses : ℕ
  chat_hits : ℕ
  chat_misses : ℕ
deriving DecidableEq, Repr

/-- The snapshot returned by `get_metrics_snapshot`. -/
structure MetricsSnapshot where
  requests_by_path : String → ℕ
  errors_by_path : String → ℕ
  average_ms : TimingField → ℚ
  p50_ms : TimingField → ℚ
  p95_ms : TimingField → ℚ
  cache : CacheStats
  sample_count : ℕ
  samples : List TimingSample

/-- Embedding of `get_metrics_snapshot` (metrics.py): averages are `sum / count` over all
samples ever recorded (`0.0` when the count is zero); p50/p95 are nearest-rank
percentiles over only the buffered samples (`0.0` when the buffer is empty). -/
def get_metrics_snapshot (st : MetricsState) (cacheStats : CacheStats) :
    MetricsSnapshot :=
  { requests_by_path := st.request_counts
    errors_by_path := st.error_counts
    average_ms := fun f =>
      if 0 < st.count then st.sums.get f / st.count else 0
    p50_ms := fun f =>
      if st.samples.isEmpty then 0
      else pyPercentile (st.samples.map (fun s => s.get f)) 50
    p95_ms := fun f =>
      if st.samples.isEmpty then 0
      else pyPercentile (st.samples.map (fun s => s.get f)) 95
    cache := cacheStats
    sample_count := st.count
    samples := st.samples }

/-! ## Chat response cache (`app/core/cache.py`)

`_chat_cache = TTLCache(maxsize=512, ttl=60)` is modelled as a list of
entries in insertion order (oldest first).  An entry is visible on lookup
while `now < insertion time + ttl`; `TTLCache.__setitem__` first drops
expired entries, replaces any entry with the same key, and evicts
oldest-inserted entries beyond the capacity.  Timestamps are rationals. -/

/-- Embedding of `_make_chat_key(namespace, query, top_k, min_score, use_web_fallback)`. -/
structure ChatKey where
  «namespace» : String
  query : String
  top_k : Int
  min_score : ℚ
  use_web_fallback : Bool
deriving DecidableEq, Repr

/-- One chat-cache entry: key, cached response, insertion time. -/
structure ChatCacheEntry where
  key : ChatKey
  value : ChatResponseR
  time : ℚ
deriving DecidableEq, Repr

/-- Value of `_CHAT_TTL_SECONDS`. -/
def CHAT_TTL_SECONDS : ℚ := 60

/-- Capacity of `_chat_cache`. -/
def CHAT_CACHE_MAXSIZE : ℕ := 512

/-- The shared mutable server-side state outside any single request: the chat
cache, its hit/miss counters and the metrics module state.  (The
retrieval-only cache is not consumed by any embedded claim.) -/
structure ServerState where
  chatCache : List ChatCacheEntry
  chat_hits : ℕ
  chat_misses : ℕ
  metrics : MetricsState

/-- Embedding of `get_chat_cached` (cache.py): no-op returning `None` when caching is
disabled; otherwise a hit (with hit-counter increment) when a non-expired
entry for the key exists, and a miss (with miss-counter increment) otherwise. -/
def get_chat_cached (enabled : Bool) (key : ChatKey) (now : ℚ)
    (srv : ServerState) : Option ChatResponseR × ServerState :=
  if !enabled then (none, srv)
  else
    match srv.chatCache.find? (fun e => e.key = key) with
    | some e =>
        if now < e.time + CHAT_TTL_SECONDS then
          (some e.value, { srv with chat_hits := srv.chat_hits + 1 })
        else
          (none, { srv with chat_misses := srv.chat_misses + 1 })
    | none => (none, { srv with chat_misses := srv.chat_misses + 1 })

/-- Embedding of `set_chat_cached` (cache.py): no-op when caching is disabled; otherwise
drop expired entries, replace any entry with the same key, append the new
entry, and evict oldest-inserted entries beyond the capacity. -/
def set_chat_cached (enabled : Bool) (key : ChatKey) (value : ChatResponseR)
    (now : ℚ) (srv : ServerState) : ServerState :=
  if !enabled then srv
  else
    let kept := (srv.chatCache.filter
        (fun e => decide (now < e.time + CHAT_TTL_SECONDS))).filter
      (fun e => e.key ≠ key)
    let cache1 := kept ++ [⟨key, value, now⟩]
    { srv with chatCache := cache1.drop (cache1.length - CHAT_CACHE_MAXSIZE) }

/-! ## Chat endpoints (`app/routers/chat.py`) -/

/-- The validated `ChatRequest` payload (`app/schemas/chat.py`);
`chat_history = None` and `chat_history = []` both behave as the empty list. -/
structure ChatPayload where
  query : String
  «namespace» : Option String
  top_k : Int
  use_web_fallback : Bool
  min_score : ℚ
  max_web_results : Int
  chat_history : List ChatMsg
deriving DecidableEq, Repr

/-- The `initial_state` dictionary both endpoints pass to `graph.invoke`. -/
def initialStateOf (settings : Settings) (payload : ChatPayload) : ChatInput :=
  { query := payload.query
    «namespace» := some (pyOrS payload.«namespace» settings.PINECONE_NAMESPACE)
    top_k := some payload.top_k
    min_score := some payload.min_score
    use_web_fallback := some payload.use_web_fallback
    max_web_results := some payload.max_web_results
    chat_history := payload.chat_history }

/-- The timings dictionary passed to `record_chat_timings` from a response
model: all four keys present. -/
def timingsInputOf (t : ChatTimingsR) : TimingField → Option ℚ
  | .retrieve_ms => some t.retrieve_ms
  | .web_ms => some t.web_ms
  | .generate_ms => some t.generate_ms
  | .total_ms => some t.total_ms

/-- The outcome of one endpoint invocation: the handler result (a response or
a propagated exception), the shared state afterwards, and how many times
`graph.invoke` ran. -/
structure EndpointOutcome where
  result : Except PyError ChatResponseR
  server : ServerState
  graphInvocations : ℕ

/-- The `/chat` endpoint handler (`chat` in routers/chat.py).  `graphFn` is
the compiled graph (`graph.invoke`), `totalMs` the measured end-to-end
duration, `now` the cache clock.  Steps, in source order: compute the
namespace and `use_cache = cache_enabled() and not payload.chat_history`;
consult the chat cache; on a hit, record the cached timings and return the
cached response without invoking the graph; otherwise invoke the graph
(exceptions propagate to the global handlers), inject `total_ms`, build the
response, record its timings, and store it in the cache when `use_cache`. -/
def chatEndpoint (settings : Settings)
    (graphFn : ChatInput → Except PyError ChatState)
    (totalMs now : ℚ) (payload : ChatPayload) (srv : ServerState) :
    EndpointOutcome :=
  let ns := pyOrS payload.«namespace» settings.PINECONE_NAMESPACE
  let use_cache := settings.CACHE_ENABLED && payload.chat_history.isEmpty
  let key : ChatKey :=
    ⟨ns, payload.query, payload.top_k, payload.min_score,
      payload.use_web_fallback⟩
  let looked :=
    if use_cache then get_chat_cached settings.CACHE_ENABLED key now srv
    else (none, srv)
  match looked.1 with
  | some cached =>
      { result := .ok cached
        server := { looked.2 with
          metrics := record_chat_timings (timingsInputOf cached.timings)
            looked.2.metrics }
        graphInvocations := 0 }
  | none =>
      match graphFn (initialStateOf settings payload) with
      | .error e =>
          { result := .error e, server := looked.2, graphInvocations := 1 }
      | .ok st =>
          let st' : ChatState :=
            { st with timings := { st.timings with total_ms := some totalMs } }
          let resp := buildChatResponse st'
          let srv2 := { looked.2 with
            metrics := record_chat_timings (timingsInputOf resp.timings)
              looked.2.metrics }
          let srv3 :=
            if use_cache then
              set_chat_cached settings.CACHE_ENABLED key resp now srv2
            else srv2
          { result := .ok resp, server := srv3, graphInvocations := 1 }

/-- The `/chat/stream` endpoint handler (`chat_stream` in routers/chat.py):
identical pipeline invocation and response construction, but no cache
consultation and no cache store; it records timing metrics and streams the
response. -/
def chatStreamEndpoint (settings : Settings)
    (graphFn : ChatInput → Except PyError ChatState)
    (totalMs _now : ℚ) (payload : ChatPayload) (srv : ServerState) :
    EndpointOutcome :=
  match graphFn (initialStateOf settings payload) with
  | .error e => { result := .error e, server := srv, graphInvocations := 1 }
  | .ok st =>
      let st' : ChatState :=
        { st with timings := { st.timings with total_ms := some totalMs } }
      let resp := buildChatResponse st'
      { result := .ok resp
        server := { srv with
          metrics := record_chat_timings (timingsInputOf resp.timings)
            srv.metrics }
        graphInvocations := 1 }

/-- Boolean test distinguishing propagated errors, used by the middleware model. -/
def exceptFailed : Except PyError ChatResponseR → Bool
  | .ok _ => false
  | .error _ => true

/-- One full `/chat` request cycle: the endpoint handler wrapped in
`metrics_middleware` (the graph being the real compiled pipeline). -/
def handleChatRequest (path : String) (settings : Settings)
    (pinecone : PineconeFn) (getTool : Int → Option TavilyToolFn) (llm : LlmFn)
    (elapsedRetrieveMs elapsedWebMs elapsedGenerateMs totalMs now : ℚ)
    (payload : ChatPayload) (srv : ServerState) : EndpointOutcome :=
  let o := chatEndpoint settings
    (runChatGraph settings pinecone getTool llm
      elapsedRetrieveMs elapsedWebMs elapsedGenerateMs)
    totalMs now payload srv
  { o with server := { o.server with
      metrics := metricsMiddlewareRecord path (exceptFailed o.result)
        o.server.metrics } }

/-! ## Theorems -/

/-- A well-formed post-normalization state with empty retrieval, zero top
score, both web flags set and threshold `0.25` (the first decision-engine
test vector). -/
def stateEmptyRetrieval : ChatState :=
  { query := "q"
    «namespace» := "dev"
    top_k := 5
    min_score := 1 / 4
    use_web_fallback := true
    max_web_results := 5
    chat_history := []
    retrieved := []
    web_results := []
    timings := ⟨none, none, none, none⟩
    tavily_available := true
    web_fallback_used := false
    top_score := 0
    answer := "" }

/-- A retrieved snippet with relevance score `0.9`. -/
def snippetScore09 : Snippet :=
  ⟨"wiki", "t", "", 9 / 10, "text"⟩

/-- The second decision-engine test vector: one snippet with score `0.9`,
top score `0.9`, threshold `0.25`. -/
def stateStrongRetrieval : ChatState :=
  { stateEmptyRetrieval with
    retrieved := [snippetScore09]
    top_score := 9 / 10 }

/-- C1: for every state, `decide_next` sets the fallback decision to true iff
web fallback was requested AND the Tavily tool is available AND (the
retrieved list is empty OR the top score is strictly below the minimum-score
threshold); in particular it is true on empty retrieval with score 0 and
threshold 0.25, false on a 0.9-score retrieval against threshold 0.25, and
false whenever either flag is cleared. -/
theorem decide_next_fallback_spec :
    (∀ s : ChatState, (decide_next s).web_fallback_used =
      (s.use_web_fallback && s.tavily_available &&
        (s.retrieved.isEmpty || decide (s.top_score < s.min_score)))) ∧
    (decide_next stateEmptyRetrieval).web_fallback_used = true ∧
    (decide_next stateStrongRetrieval).web_fallback_used = false ∧
    (∀ s : ChatState,
      (decide_next { s with use_web_fallback := false }).web_fallback_used
        = false) ∧
    (∀ s : ChatState,
      (decide_next { s with tavily_available := false }).web_fallback_used
        = false) := by
  refine ⟨fun s => ?_,
    by norm_num [decide_next, stateEmptyRetrieval],
    by norm_num [decide_next, stateStrongRetrieval, stateEmptyRetrieval],
    fun s => ?_, fun s => ?_⟩
  · simp only [decide_next]
    cases hu : s.use_web_fallback <;> cases ha : s.tavily_available <;>
      cases hr : s.retrieved.isEmpty <;>
        by_cases hlt : s.top_score < s.min_score <;>
          simp [hu, ha, hr, hlt]
  · simp [decide_next]
  · simp [decide_next]

/-- A concrete configuration used by the concrete runs below. -/
def settingsDefault : Settings :=
  { PINECONE_NAMESPACE := "dev"
    RAG_DEFAULT_TOP_K := 5
    RAG_MIN_SCORE := 1 / 4
    RAG_MAX_WEB_RESULTS := 5
    TAVILY_API_KEY := "key"
    CACHE_ENABLED := true }

/-- A concrete graph input with no conversation history. -/
def inputSimple : ChatInput :=
  { query := "q"
    «namespace» := none
    top_k := none
    min_score := none
    use_web_fallback := some true
    max_web_results := none
    chat_history := [] }

/-- A Pinecone capability whose call raises a connection error. -/
def pineconeDown : PineconeFn := fun _ _ _ => .error (.other "ConnectionError")

/-- A Pinecone capability returning no hits. -/
def pineconeEmpty : PineconeFn := fun _ _ _ => .ok []

/-- An LLM capability returning a fixed answer. -/
def llmOk : LlmFn := fun _ _ _ => .ok "answer"

/-- An LLM capability whose call raises. -/
def llmDown : LlmFn := fun _ _ _ => .error (.other "APIError")

/-- Models `get_tavily_tool` when the tool is unavailable. -/
def noTavilyTool : Int → Option TavilyToolFn := fun _ => none

/-- Models `get_tavily_tool` returning a tool whose invocation raises. -/
def tavilyToolDown : Int → Option TavilyToolFn :=
  fun _ => some (fun _ => .error (.other "HTTPError"))

/-- C2 counterexample: a pipeline run whose vector-retrieval capability fails
aborts with the raw exception, NOT with a typed `UpstreamServiceError`:
`retrieve_context` has no try/except around `pinecone_search`, so the claim
that all three external-capability stages raise `UpstreamServiceError` is
false for the retrieval stage. -/
theorem retrieval_failure_unwrapped_cex :
    runChatGraph settingsDefault pineconeDown noTavilyTool llmOk 0 0 0
        inputSimple = .error (.other "ConnectionError") ∧
    isUpstreamError (.other "ConnectionError") = false :=
  ⟨rfl, rfl⟩

/-- C2 (amended): a failing web-search or answer-generation call aborts the
run with a typed `UpstreamServiceError` naming the capability (Tavily, Groq
respectively); a failing vector-retrieval call also aborts the run
immediately, but propagates the underlying exception unchanged instead of an
`UpstreamServiceError`. -/
theorem upstream_error_propagation :
    (∀ (pinecone : PineconeFn) (eR : ℚ) (s : ChatState) (e : PyError),
      pinecone s.«namespace» s.query s.top_k = .error e →
        retrieve_context pinecone eR s = .error e) ∧
    (∀ (settings : Settings) (pinecone : PineconeFn)
        (getTool : Int → Option TavilyToolFn) (llm : LlmFn)
        (eR eW eG : ℚ) (input : ChatInput) (e : PyError),
      pinecone (normalize_input settings input).«namespace»
          (normalize_input settings input).query
          (normalize_input settings input).top_k = .error e →
        runChatGraph settings pinecone getTool llm eR eW eG input
          = .error e) ∧
    (∀ (getTool : Int → Option TavilyToolFn) (f : TavilyToolFn)
        (eW : ℚ) (s : ChatState) (e : PyError),
      getTool (pyOrZ (some s.max_web_results) 5) = some f →
      f s.query = .error e →
        web_search getTool eW s = .error (.upstream "Tavily"
          "Upstream Tavily web search failed. Try again later or disable web fallback.")) ∧
    (∀ (llm : LlmFn) (eG : ℚ) (s : ChatState) (e : PyError),
      llm s.chat_history s.query (s.retrieved ++ s.web_results) = .error e →
        generate_answer llm eG s = .error (.upstream "Groq"
          "Upstream Groq chat completion failed. Please try again later.")) ∧
    (∀ (settings : Settings) (pinecone : PineconeFn)
        (getTool : Int → Option TavilyToolFn) (llm : LlmFn)
        (eR eW eG : ℚ) (input : ChatInput) (s2 : ChatState) (e : PyError),
      retrieve_context pinecone eR (normalize_input settings input) = .ok s2 →
      routeAfterDecideNext (decide_next s2) = true →
      web_search getTool eW (decide_next s2) = .error e →
        runChatGraph settings pinecone getTool llm eR eW eG input
          = .error e) ∧
    (∀ (settings : Settings) (pinecone : PineconeFn)
        (getTool : Int → Option TavilyToolFn) (llm : LlmFn)
        (eR eW eG : ℚ) (input : ChatInput) (s2 : ChatState) (e : PyError),
      retrieve_context pinecone eR (normalize_input settings input) = .ok s2 →
      routeAfterDecideNext (decide_next s2) = false →
      generate_answer llm eG (decide_next s2) = .error e →
        runChatGraph settings pinecone getTool llm eR eW eG input
          = .error e) ∧
    (∀ (settings : Settings) (pinecone : PineconeFn)
        (getTool : Int → Option TavilyToolFn) (llm : LlmFn)
        (eR eW eG : ℚ) (input : ChatInput) (s2 s4 : ChatState) (e : PyError),
      retrieve_context pinecone eR (normalize_input settings input) = .ok s2 →
      routeAfterDecideNext (decide_next s2) = true →
      web_search getTool eW (decide_next s2) = .ok s4 →
      generate_answer llm eG s4 = .error e →
        runChatGraph settings pinecone getTool llm eR eW eG input
          = .error e) := by
  refine ⟨?_, ?_, ?_, ?_, ?_, ?_, ?_⟩
  · intro pinecone eR s e h
    simp [retrieve_context, h]
  · intro settings pinecone getTool llm eR eW eG input e h
    simp [runChatGraph, retrieve_context, h]
  · intro getTool f eW s e hTool hFail
    simp [web_search, hTool, hFail]
  · intro llm eG s e h
    simp [generate_answer, h]
  · intro settings pinecone getTool llm eR eW eG input s2 e hRet hRoute hWeb
    simp [runChatGraph, hRet, hRoute, hWeb]
  · intro settings pinecone getTool llm eR eW eG input s2 e hRet hRoute hGen
    simp [runChatGraph, hRet, hRoute, hGen, Except.map]
  · intro settings pinecone getTool llm eR eW eG input s2 s4 e hRet hRoute
      hWeb hGen
    simp [runChatGraph, hRet, hRoute, hWeb, hGen, Except.map]

/-- C2 witness: the amended statement applied to concrete failing
capabilities. -/
theorem upstream_error_propagation_witness :
    retrieve_context pineconeDown 0 stateEmptyRetrieval
        = .error (.other "ConnectionError") ∧
    web_search tavilyToolDown 0 stateEmptyRetrieval
        = .error (.upstream "Tavily"
          "Upstream Tavily web search failed. Try again later or disable web fallback.") ∧
    generate_answer llmDown 0 stateEmptyRetrieval
        = .error (.upstream "Groq"
          "Upstream Groq chat completion failed. Please try again later.") :=
  ⟨upstream_error_propagation.1 pineconeDown 0 stateEmptyRetrieval
      (.other "ConnectionError") rfl,
   upstream_error_propagation.2.2.1 tavilyToolDown
      (fun _ => .error (.other "HTTPError")) 0 stateEmptyRetrieval
      (.other "HTTPError") rfl rfl,
   upstream_error_propagation.2.2.2.1 llmDown 0 stateEmptyRetrieval
      (.other "APIError") rfl⟩

/-- A request state whose `min_score` is explicitly set to the falsy value
`0.0`. -/
def inputFalsyMinScore : ChatInput :=
  { inputSimple with min_score := some 0 }

/-- C7 counterexample: `normalize_input` replaces a field that IS set on the
request whenever its value is falsy, because the source uses Python `or`:
with `min_score` set to `0.0` and a configured default of `0.25`, the
normalized value is `0.25`, not the request's `0.0`. -/
theorem normalize_preserves_set_fields_cex :
    inputFalsyMinScore.min_score = some 0 ∧
    (normalize_input settingsDefault inputFalsyMinScore).min_score = 1 / 4 ∧
    (1 / 4 : ℚ) ≠ 0 := by
  refine ⟨rfl, ?_, by norm_num⟩
  norm_num [normalize_input, inputFalsyMinScore, inputSimple, settingsDefault,
    pyOrQ]

/-- C7 (amended): `normalize_input` fills `namespace`, `top_k`, `min_score`
and `max_web_results` from configuration exactly when the corresponding
request field is unset OR set to a falsy value (`""` for the namespace, `0`
for the numeric fields); a field set to a truthy value is preserved
unchanged.  The stage is a total function, so it always succeeds. -/
theorem normalize_input_defaults (settings : Settings) (input : ChatInput) :
    (∀ s, input.«namespace» = some s → s ≠ "" →
      (normalize_input settings input).«namespace» = s) ∧
    (∀ k, input.top_k = some k → k ≠ 0 →
      (normalize_input settings input).top_k = k) ∧
    (∀ m, input.min_score = some m → m ≠ 0 →
      (normalize_input settings input).min_score = m) ∧
    (∀ w, input.max_web_results = some w → w ≠ 0 →
      (normalize_input settings input).max_web_results = w) ∧
    (input.«namespace» = none ∨ input.«namespace» = some "" →
      (normalize_input settings input).«namespace»
        = settings.PINECONE_NAMESPACE) ∧
    (input.top_k = none ∨ input.top_k = some 0 →
      (normalize_input settings input).top_k = settings.RAG_DEFAULT_TOP_K) ∧
    (input.min_score = none ∨ input.min_score = some 0 →
      (normalize_input settings input).min_score = settings.RAG_MIN_SCORE) ∧
    (input.max_web_results = none ∨ input.max_web_results = some 0 →
      (normalize_input settings input).max_web_results
        = settings.RAG_MAX_WEB_RESULTS) := by
  refine ⟨?_, ?_, ?_, ?_, ?_, ?_, ?_, ?_⟩
  · intro s hs hns
    simp [normalize_input, pyOrS, hs, hns]
  · intro k hk hnk
    simp [normalize_input, pyOrZ, hk, hnk]
  · intro m hm hnm
    simp [normalize_input, pyOrQ, hm, hnm]
  · intro w hw hnw
    simp [normalize_input, pyOrZ, hw, hnw]
  · rintro (h | h) <;> simp [normalize_input, pyOrS, h]
  · rintro (h | h) <;> simp [normalize_input, pyOrZ, h]
  · rintro (h | h) <;> simp [normalize_input, pyOrQ, h]
  · rintro (h | h) <;> simp [normalize_input, pyOrZ, h]

/-- A request state with every defaultable field set to a truthy value. -/
def inputAllSet : ChatInput :=
  { query := "q"
    «namespace» := some "ns1"
    top_k := some 7
    min_score := some (1 / 2)
    use_web_fallback := some false
    max_web_results := some 3
    chat_history := [] }

/-- C7 witness: the amended statement applied to a concrete request with all
fields set to truthy values (preserved) and to a concrete request with
`min_score` unset (filled from configuration). -/
theorem normalize_input_defaults_witness :
    (normalize_input settingsDefault inputAllSet).«namespace» = "ns1" ∧
    (normalize_input settingsDefault inputAllSet).top_k = 7 ∧
    (normalize_input settingsDefault inputAllSet).min_score = 1 / 2 ∧
    (normalize_input settingsDefault inputAllSet).max_web_results = 3 ∧
    (normalize_input settingsDefault inputSimple).min_score = 1 / 4 :=
  ⟨(normalize_input_defaults settingsDefault inputAllSet).1 "ns1" rfl
      (by decide),
   (normalize_input_defaults settingsDefault inputAllSet).2.1 7 rfl
      (by decide),
   (normalize_input_defaults settingsDefault inputAllSet).2.2.1 (1 / 2) rfl
      (by norm_num),
   (normalize_input_defaults settingsDefault inputAllSet).2.2.2.1 3 rfl
      (by decide),
   (normalize_input_defaults settingsDefault inputSimple).2.2.2.2.2.2.1
      (Or.inl rfl)⟩

/-- The seed `a` is a lower bound of `List.foldl max a l`. -/
theorem foldl_max_init_le (l : List ℚ) (a : ℚ) : a ≤ l.foldl max a := by
  induction l generalizing a with
  | nil => exact le_refl a
  | cons b t ih => exact le_trans (le_max_left a b) (ih (max a b))

/-- Every member of `l` is bounded by `List.foldl max a l`. -/
theorem mem_le_foldl_max (l : List ℚ) (a : ℚ) :
    ∀ x ∈ l, x ≤ l.foldl max a := by
  induction l generalizing a with
  | nil => intro x hx; cases hx
  | cons b t ih =>
      intro x hx
      rcases List.mem_cons.mp hx with h | h
      · subst h
        exact le_trans (le_max_right a x) (foldl_max_init_le t (max a x))
      · exact ih (max a b) x h

/-- The fold `List.foldl max a l` is `a` or a member of `l`. -/
theorem foldl_max_attained (l : List ℚ) (a : ℚ) :
    l.foldl max a = a ∨ ∃ x ∈ l, l.foldl max a = x := by
  induction l generalizing a with
  | nil => exact Or.inl rfl
  | cons b t ih =>
      rcases ih (max a b) with h | ⟨x, hx, hfx⟩
      · rcases max_choice a b with hab | hab
        · exact Or.inl (by simpa [hab] using h)
        · exact Or.inr ⟨b, List.mem_cons_self b t, by simpa [hab] using h⟩
      · exact Or.inr ⟨x, List.mem_cons_of_mem b hx, hfx⟩

/-- A Pinecone hit whose relevance score is negative. -/
def hitNeg : PineconeHit :=
  ⟨some (-1), none, some "txt", some "t", some "wiki", none⟩

/-- A Pinecone capability returning exactly one hit with score `-1`. -/
def pineconeNeg : PineconeFn := fun _ _ _ => .ok [hitNeg]

/-- C8 counterexample: with a single hit of score `-1`, the Retrieve stage
sets the state's top score to `0.0` (the fold starts at `0.0`), not to the
maximum relevance score across the hits, which is `-1`. -/
theorem retrieve_top_score_cex :
    ((retrieve_context pineconeNeg 0 stateEmptyRetrieval).toOption.map
        ChatState.top_score) = some 0 ∧
    hitScore hitNeg = -1 ∧
    (0 : ℚ) ≠ -1 := by
  refine ⟨?_, by norm_num [hitScore, hitNeg, pyOrQ], by norm_num⟩
  norm_num [retrieve_context, pineconeNeg, hitNeg, hitScore, pyOrQ,
    Except.toOption]

/-- C8 (amended): after a successful Retrieve stage the state's top score is
the maximum of `0.0` and the relevance scores of the hits — so it is
nonnegative, an upper bound of every hit score, attained by some hit unless
it is `0.0`, and equal to `0.0` when there are no hits.  (It equals the
maximum across the hits exactly when some hit score is nonnegative.) -/
theorem retrieve_top_score_spec (pinecone : PineconeFn) (elapsedMs : ℚ)
    (s s' : ChatState) (hits : List PineconeHit)
    (hok : pinecone s.«namespace» s.query s.top_k = .ok hits)
    (hret : retrieve_context pinecone elapsedMs s = .ok s') :
    0 ≤ s'.top_score ∧
    (∀ h ∈ hits, hitScore h ≤ s'.top_score) ∧
    (s'.top_score = 0 ∨ ∃ h ∈ hits, s'.top_score = hitScore h) ∧
    (hits = [] → s'.top_score = 0) := by
  have hs' : s'.top_score
      = (hits.map hitScore).foldl max 0 := by
    rw [retrieve_context, hok] at hret
    have := congrArg ChatState.top_score (Except.ok.inj hret).symm
    simpa [List.foldl_map] using this
  refine ⟨?_, ?_, ?_, ?_⟩
  · rw [hs']; exact foldl_max_init_le _ 0
  · intro h hmem
    rw [hs']
    exact mem_le_foldl_max _ 0 (hitScore h) (List.mem_map_of_mem hitScore hmem)
  · rw [hs']
    rcases foldl_max_attained (hits.map hitScore) 0 with h | ⟨x, hx, hfx⟩
    · exact Or.inl h
    · rcases List.mem_map.mp hx with ⟨h, hmem, rfl⟩
      exact Or.inr ⟨h, hmem, hfx⟩
  · rintro rfl
    simpa using hs'

/-- A Pinecone hit with relevance score `0.9`. -/
def hit09 : PineconeHit :=
  ⟨some (9 / 10), none, some "txt", some "t", some "wiki", none⟩

/-- A Pinecone capability returning exactly one hit with score `0.9`. -/
def pinecone09 : PineconeFn := fun _ _ _ => .ok [hit09]

/-- The state produced by the Retrieve stage on `stateEmptyRetrieval` with
`pinecone09` and a zero measured duration. -/
def stateAfterRetrieve09 : ChatState :=
  { stateEmptyRetrieval with
    timings := ⟨some 0, none, none, none⟩
    retrieved := [hitToSnippet hit09]
    top_score := 9 / 10 }

/-- C8 witness: the amended statement applied to a concrete successful
retrieval with one hit of score `0.9`. -/
theorem retrieve_top_score_spec_witness :
    0 ≤ stateAfterRetrieve09.top_score ∧
    ([hit09] = [] → stateAfterRetrieve09.top_score = 0) := by
  have h := retrieve_top_score_spec pinecone09 0 stateEmptyRetrieval
    stateAfterRetrieve09 [hit09] rfl
    (by
      simp only [retrieve_context, pinecone09, stateAfterRetrieve09,
        stateEmptyRetrieval, hit09, hitScore, pyOrQ, List.map, List.foldl]
      norm_num)
  exact ⟨h.1, h.2.2.2⟩

/-- C9: when the WebSearch stage runs and `get_tavily_tool` yields no tool,
the stage sets the web-results list to empty and returns normally (no error),
and the graph then proceeds to answer generation: the whole run equals the
Generate→Format suffix applied to the state with empty web results. -/
theorem web_search_unavailable_graceful :
    (∀ (getTool : Int → Option TavilyToolFn) (eW : ℚ) (s : ChatState),
      getTool (pyOrZ (some s.max_web_results) 5) = none →
        web_search getTool eW s
          = .ok { s with
                  timings := setdefaultWebMs s.timings
                  web_results := [] }) ∧
    (∀ (settings : Settings) (pinecone : PineconeFn)
        (getTool : Int → Option TavilyToolFn) (llm : LlmFn)
        (eR eW eG : ℚ) (input : ChatInput) (s2 : ChatState),
      retrieve_context pinecone eR (normalize_input settings input) = .ok s2 →
      routeAfterDecideNext (decide_next s2) = true →
      (∀ k, getTool k = none) →
        runChatGraph settings pinecone getTool llm eR eW eG input
          = (generate_answer llm eG
              { decide_next s2 with
                timings := setdefaultWebMs (decide_next s2).timings
                web_results := [] }).map format_response) := by
  constructor
  · intro getTool eW s h
    simp [web_search, h]
  · intro settings pinecone getTool llm eR eW eG input s2 hRet hRoute hTool
    simp [runChatGraph, hRet, hRoute, web_search, hTool]

/-- The state after Normalize and an empty Retrieve on `inputSimple` under
`settingsDefault` (zero measured duration). -/
def stateRetrievedEmpty : ChatState :=
  { query := "q"
    «namespace» := "dev"
    top_k := 5
    min_score := 1 / 4
    use_web_fallback := true
    max_web_results := 5
    chat_history := []
    retrieved := []
    web_results := []
    timings := ⟨some 0, none, none, none⟩
    tavily_available := true
    web_fallback_used := false
    top_score := 0
    answer := "" }

/-- C9 witness: a concrete run with web fallback requested, Tavily
configured but the tool unavailable, and empty retrieval: the run reaches
generation with empty web results. -/
theorem web_search_unavailable_graceful_witness :
    runChatGraph settingsDefault pineconeEmpty noTavilyTool llmOk 0 0 0
        inputSimple
      = (generate_answer llmOk 0
          { decide_next stateRetrievedEmpty with
            timings := setdefaultWebMs (decide_next stateRetrievedEmpty).timings
            web_results := [] }).map format_response :=
  web_search_unavailable_graceful.2 settingsDefault pineconeEmpty noTavilyTool
    llmOk 0 0 0 inputSimple stateRetrievedEmpty rfl rfl (fun _ => rfl)

/-- Pointwise addition commutes with field lookup. -/
theorem TimingSample.get_add (a b : TimingSample) (f : TimingField) :
    (a.add b).get f = a.get f + b.get f := by
  cases f <;> rfl

/-- Folding `record_chat_timings` over a list of inputs, from any state whose
buffer respects the capacity: the buffer holds the last
`TIMING_BUFFER_SIZE` of old-buffer-plus-new-samples, the count grows by the
number of inputs, and each field's sum grows by the total of that field over
the new samples. -/
theorem drop_ring_compose {α : Type} (A E : List α) (e : α) (N : ℕ) :
    ((A ++ [e]).drop (A.length + 1 - N) ++ E).drop
        (((A ++ [e]).drop (A.length + 1 - N)).length + E.length - N)
      = (A ++ e :: E).drop (A.length + (E.length + 1) - N) := by
  have hk : A.length + 1 - N ≤ (A ++ [e]).length := by
    simp only [List.length_append, List.length_cons, List.length_nil]
    omega
  rw [← List.drop_append_of_le_length hk, List.drop_drop]
  have hX : A ++ [e] ++ E = A ++ e :: E := by simp
  rw [hX]
  congr 1
  simp only [List.length_drop, List.length_append, List.length_cons,
    List.length_nil]
  omega

theorem record_chat_timings_foldl (ts : List (TimingField → Option ℚ))
    (st : MetricsState) (hlen : st.samples.length ≤ TIMING_BUFFER_SIZE) :
    (ts.foldl (fun s t => record_chat_timings t s) st).samples
      = (st.samples ++ ts.map extractSample).drop
          (st.samples.length + ts.length - TIMING_BUFFER_SIZE) ∧
    (ts.foldl (fun s t => record_chat_timings t s) st).count
      = st.count + ts.length ∧
    ∀ f, (ts.foldl (fun s t => record_chat_timings t s) st).sums.get f
      = st.sums.get f + ((ts.map extractSample).map (fun s => s.get f)).sum := by
  induction ts generalizing st with
  | nil =>
      refine ⟨?_, by simp, by simp⟩
      have h0 : st.samples.length - TIMING_BUFFER_SIZE = 0 := by omega
      simp [h0]
  | cons t rest ih =>
      have hstep : (record_chat_timings t st).samples
          = (st.samples ++ [extractSample t]).drop
              (st.samples.length + 1 - TIMING_BUFFER_SIZE) := by
        simp [record_chat_timings]
      have hlen' : (record_chat_timings t st).samples.length
          ≤ TIMING_BUFFER_SIZE := by
        rw [hstep]
        simp only [List.length_drop, List.length_append, List.length_cons,
          List.length_nil]
        omega
      obtain ⟨ihs, ihc, ihsum⟩ := ih (record_chat_timings t st) hlen'
      refine ⟨?_, ?_, ?_⟩
      · rw [List.foldl_cons, ihs, hstep]
        simpa only [List.length_cons, List.map_cons, List.length_map] using
          drop_ring_compose st.samples (rest.map extractSample)
            (extractSample t) TIMING_BUFFER_SIZE
      · rw [List.foldl_cons, ihc]
        simp only [record_chat_timings, List.length_cons]
        omega
      · intro f
        rw [List.foldl_cons, ihsum f]
        simp only [record_chat_timings, TimingSample.get_add, List.map_cons,
          List.sum_cons]
        ring

/-- C6: after recording `n` timing samples from the initial state, the ring
buffer holds exactly the most recent `min(n, 20)` samples (the oldest is
dropped on overflow), while the running count is `n` and each field's running
sum is the sum of that field over ALL `n` samples ever recorded. -/
theorem metrics_ring_buffer_spec (ts : List (TimingField → Option ℚ)) :
    (ts.foldl (fun s t => record_chat_timings t s) initMetrics).samples
      = (ts.map extractSample).drop (ts.length - TIMING_BUFFER_SIZE) ∧
    (ts.foldl (fun s t => record_chat_timings t s) initMetrics).samples.length
      = min ts.length TIMING_BUFFER_SIZE ∧
    (ts.foldl (fun s t => record_chat_timings t s) initMetrics).count
      = ts.length ∧
    ∀ f, (ts.foldl (fun s t => record_chat_timings t s) initMetrics).sums.get f
      = ((ts.map extractSample).map (fun s => s.get f)).sum := by
  obtain ⟨hs, hc, hsum⟩ :=
    record_chat_timings_foldl ts initMetrics (by simp [initMetrics])
  have hs' : (ts.foldl (fun s t => record_chat_timings t s) initMetrics).samples
      = (ts.map extractSample).drop (ts.length - TIMING_BUFFER_SIZE) := by
    rw [hs]
    simp [initMetrics]
  refine ⟨hs', ?_, by simpa [initMetrics] using hc, ?_⟩
  · rw [hs']
    simp only [List.length_drop, List.length_map]
    omega
  · intro f
    rw [hsum f]
    have : initMetrics.sums.get f = 0 := by cases f <;> rfl
    rw [this, zero_add]

/-- The spec-side nearest-rank selection, written from the spec's words:
the element at index `clamp(round(p/100 × (len-1)), 0, len-1)` of the values
sorted ascending, where `round` is the source language's rounding
(nearest integer, ties to even). -/
def specNearestRank (p : ℚ) (values : List ℚ) : ℚ :=
  let sorted := values.insertionSort (· ≤ ·)
  let len : ℤ := sorted.length
  sorted.getD (max 0 (min (len - 1) (pyRound (p / 100 * (len - 1))))).toNat 0

/-- The timings mapping recording `x` milliseconds in the `total_ms` field. -/
def totalOnlyInput (x : ℚ) : TimingField → Option ℚ :=
  fun f => match f with
  | .total_ms => some x
  | _ => none

/-- The metrics state after recording total-duration samples
10, 20, 30, 40, 50 ms from the initial state. -/
def metricsAfterFive : MetricsState :=
  ([10, 20, 30, 40, 50] : List ℚ).foldl
    (fun s x => record_chat_timings (totalOnlyInput x) s) initMetrics

/-- All-zero cache counters. -/
def cacheStatsZero : CacheStats := ⟨0, 0, 0, 0⟩

/-- The buffer after the five recordings, computed. -/
theorem metricsAfterFive_samples_eq :
    metricsAfterFive.samples
      = [⟨0, 0, 0, 10⟩, ⟨0, 0, 0, 20⟩, ⟨0, 0, 0, 30⟩,
         ⟨0, 0, 0, 40⟩, ⟨0, 0, 0, 50⟩] := by
  norm_num [metricsAfterFive, record_chat_timings, extractSample,
    totalOnlyInput, initMetrics, TIMING_BUFFER_SIZE]

/-- C5: with a non-empty buffer the snapshot's p50/p95 for each field are the
nearest-rank selection `clamp(round(p/100 × (len-1)), 0, len-1)` over that
field's buffered values sorted ascending; with zero samples all percentiles
and averages are 0; and on buffered samples 10,20,30,40,50 (one field),
p50 = 30 and p95 = 50. -/
theorem metrics_percentiles_spec :
    (∀ (st : MetricsState) (cs : CacheStats) (f : TimingField),
      st.samples ≠ [] →
        (get_metrics_snapshot st cs).p50_ms f
            = specNearestRank 50 (st.samples.map (fun s => s.get f)) ∧
        (get_metrics_snapshot st cs).p95_ms f
            = specNearestRank 95 (st.samples.map (fun s => s.get f))) ∧
    (∀ (st : MetricsState) (cs : CacheStats) (f : TimingField),
      st.samples = [] → st.count = 0 →
        (get_metrics_snapshot st cs).p50_ms f = 0 ∧
        (get_metrics_snapshot st cs).p95_ms f = 0 ∧
        (get_metrics_snapshot st cs).average_ms f = 0) ∧
    ((get_metrics_snapshot metricsAfterFive cacheStatsZero).p50_ms .total_ms
        = 30 ∧
     (get_metrics_snapshot metricsAfterFive cacheStatsZero).p95_ms .total_ms
        = 50) := by
  refine ⟨?_, ?_, ?_, ?_⟩
  · intro st cs f h
    constructor <;>
      simp [get_metrics_snapshot, pyPercentile, specNearestRank,
        List.isEmpty_iff, h]
  · intro st cs f h1 h2
    simp [get_metrics_snapshot, h1, h2]
  · have hne : metricsAfterFive.samples.isEmpty = false := by
      rw [metricsAfterFive_samples_eq]; rfl
    have hvals : metricsAfterFive.samples.map
        (fun s => s.get TimingField.total_ms) = [10, 20, 30, 40, 50] := by
      rw [metricsAfterFive_samples_eq]; rfl
    simp only [get_metrics_snapshot, hne, Bool.false_eq_true, if_false, hvals]
    norm_num [pyPercentile, pyRound, List.insertionSort, List.orderedInsert,
      List.getD]
    rfl
  · have hne : metricsAfterFive.samples.isEmpty = false := by
      rw [metricsAfterFive_samples_eq]; rfl
    have hvals : metricsAfterFive.samples.map
        (fun s => s.get TimingField.total_ms) = [10, 20, 30, 40, 50] := by
      rw [metricsAfterFive_samples_eq]; rfl
    simp only [get_metrics_snapshot, hne, Bool.false_eq_true, if_false, hvals]
    norm_num [pyPercentile, pyRound, List.insertionSort, List.orderedInsert,
      List.getD]
    rfl

/-- C5 witness: the percentile characterisation applied to the concrete
five-sample metrics state. -/
theorem metrics_percentiles_spec_witness :
    (get_metrics_snapshot metricsAfterFive cacheStatsZero).p50_ms
        TimingField.total_ms
      = specNearestRank 50 (metricsAfterFive.samples.map
          (fun s => s.get TimingField.total_ms)) ∧
    (get_metrics_snapshot metricsAfterFive cacheStatsZero).p95_ms
        TimingField.total_ms
      = specNearestRank 95 (metricsAfterFive.samples.map
          (fun s => s.get TimingField.total_ms)) :=
  metrics_percentiles_spec.1 metricsAfterFive cacheStatsZero
    TimingField.total_ms (by simp [metricsAfterFive_samples_eq])

/-- The chat-cache key a request hashes to
(`_make_chat_key` on the router's arguments). -/
def chatKeyOf (settings : Settings) (payload : ChatPayload) : ChatKey :=
  ⟨pyOrS payload.«namespace» settings.PINECONE_NAMESPACE, payload.query,
    payload.top_k, payload.min_score, payload.use_web_fallback⟩

/-- A cache lookup never changes the cache contents or the metrics state
(it only bumps the hit/miss counters). -/
theorem get_chat_cached_frame (enabled : Bool) (key : ChatKey) (now : ℚ)
    (srv : ServerState) :
    (get_chat_cached enabled key now srv).2.chatCache = srv.chatCache ∧
    (get_chat_cached enabled key now srv).2.metrics = srv.metrics := by
  unfold get_chat_cached
  cases enabled with
  | false => simp
  | true =>
      cases hfind : srv.chatCache.find? (fun e => e.key = key) with
      | none => simp [hfind]
      | some e =>
          by_cases ht : now < e.time + CHAT_TTL_SECONDS <;> simp [hfind, ht]

/-- Searching a key in the tail of `l ++ [e]` finds `e` whenever no element
of `l` carries the key and `e` does. -/
theorem find?_key_drop_append (l : List ChatCacheEntry) (key : ChatKey)
    (e : ChatCacheEntry) (n : ℕ)
    (hl : ∀ x ∈ l, x.key ≠ key) (he : e.key = key) (hn : n ≤ l.length) :
    ((l ++ [e]).drop n).find? (fun x => x.key = key) = some e := by
  rw [List.drop_append_of_le_length hn]
  have hnone : (l.drop n).find? (fun x => x.key = key) = none :=
    List.find?_eq_none.mpr
      (fun x hx => by simp [hl x (List.mem_of_mem_drop hx)])
  rw [List.find?_append, hnone]
  simp [he]

/-- After `set_chat_cached` with caching enabled, looking the key up in the
cache list finds exactly the entry just inserted. -/
theorem set_chat_cached_find (key : ChatKey) (v : ChatResponseR) (now : ℚ)
    (srv : ServerState) :
    (set_chat_cached true key v now srv).chatCache.find?
        (fun e => e.key = key) = some ⟨key, v, now⟩ := by
  unfold set_chat_cached
  simp only [Bool.not_true, Bool.false_eq_true, if_false]
  apply find?_key_drop_append
  · intro x hx
    have := List.of_mem_filter hx
    simpa using this
  · rfl
  · simp only [List.length_append, List.length_cons, List.length_nil,
      CHAT_CACHE_MAXSIZE]
    omega

/-- C10: the streaming chat endpoint never consults or writes the chat
response cache: for every request (history-empty and caching-enabled
included), the cache contents and the hit/miss counters are unchanged and
the pipeline graph is executed exactly once. -/
theorem chat_stream_no_cache (settings : Settings)
    (graphFn : ChatInput → Except PyError ChatState)
    (totalMs now : ℚ) (payload : ChatPayload) (srv : ServerState) :
    (chatStreamEndpoint settings graphFn totalMs now payload srv).server.chatCache
        = srv.chatCache ∧
    (chatStreamEndpoint settings graphFn totalMs now payload srv).server.chat_hits
        = srv.chat_hits ∧
    (chatStreamEndpoint settings graphFn totalMs now payload srv).server.chat_misses
        = srv.chat_misses ∧
    (chatStreamEndpoint settings graphFn totalMs now payload srv).graphInvocations
        = 1 := by
  cases h : graphFn (initialStateOf settings payload) <;>
    simp [chatStreamEndpoint, h]

/-- C4: for every `/chat` request whose pipeline run is actually executed
(`graphInvocations = 1`) and aborts with a Generate-stage
`UpstreamServiceError("Groq", ...)`, the full request cycle writes no chat
cache entry, records no timing sample (buffer, count and running sums are
unchanged), and increments the error counter — and the request counter — for
the request's path exactly once. -/
theorem generate_failure_effects (path : String) (settings : Settings)
    (pinecone : PineconeFn) (getTool : Int → Option TavilyToolFn) (llm : LlmFn)
    (eR eW eG totalMs now : ℚ) (payload : ChatPayload) (srv : ServerState)
    (o : EndpointOutcome) (gmsg : String)
    (he : runChatGraph settings pinecone getTool llm eR eW eG
        (initialStateOf settings payload) = .error (.upstream "Groq" gmsg))
    (ho : handleChatRequest path settings pinecone getTool llm eR eW eG totalMs
        now payload srv = o)
    (hrun : o.graphInvocations = 1) :
    o.server.chatCache = srv.chatCache ∧
    o.server.metrics.samples = srv.metrics.samples ∧
    o.server.metrics.count = srv.metrics.count ∧
    (∀ f, o.server.metrics.sums.get f = srv.metrics.sums.get f) ∧
    o.server.metrics.error_counts path = srv.metrics.error_counts path + 1 ∧
    o.server.metrics.request_counts path
      = srv.metrics.request_counts path + 1 := by
  subst ho
  unfold handleChatRequest chatEndpoint at *
  by_cases huc : settings.CACHE_ENABLED && payload.chat_history.isEmpty
  · simp only [huc, if_true] at hrun ⊢
    set key : ChatKey :=
      ⟨pyOrS payload.«namespace» settings.PINECONE_NAMESPACE, payload.query,
        payload.top_k, payload.min_score, payload.use_web_fallback⟩ with hkey
    obtain ⟨hcc, hmm⟩ :=
      get_chat_cached_frame settings.CACHE_ENABLED key now srv
    cases hl : (get_chat_cached settings.CACHE_ENABLED key now srv).1 with
    | some cached => simp [hl] at hrun
    | none =>
        simp only [hl, he] at hrun ⊢
        refine ⟨by simp [hcc], ?_, ?_, ?_, ?_, ?_⟩ <;>
          simp [metricsMiddlewareRecord, exceptFailed, hmm]
  · simp only [huc, if_false] at hrun ⊢
    simp only [he] at hrun ⊢
    refine ⟨rfl, ?_, ?_, ?_, ?_, ?_⟩ <;>
      simp [metricsMiddlewareRecord, exceptFailed]

/-- A concrete validated `/chat` payload with empty history; `min_score` is
`1.0` so the concrete runs below stay within integer-valued rationals. -/
def payloadSimple : ChatPayload :=
  { query := "q"
    «namespace» := none
    top_k := 5
    use_web_fallback := true
    min_score := 1
    max_web_results := 5
    chat_history := [] }

/-- The process-start shared state: empty cache, zero counters. -/
def serverInit : ServerState :=
  { chatCache := []
    chat_hits := 0
    chat_misses := 0
    metrics := initMetrics }

/-- C4 witness: a concrete request whose Generate stage fails (Pinecone
returns no hits, Tavily is unavailable, the LLM raises). -/
theorem generate_failure_effects_witness :
    (handleChatRequest "/chat" settingsDefault pineconeEmpty noTavilyTool
        llmDown 0 0 0 0 0 payloadSimple serverInit).server.chatCache
      = serverInit.chatCache ∧
    (handleChatRequest "/chat" settingsDefault pineconeEmpty noTavilyTool
        llmDown 0 0 0 0 0 payloadSimple serverInit).server.metrics.samples
      = serverInit.metrics.samples ∧
    (handleChatRequest "/chat" settingsDefault pineconeEmpty noTavilyTool
        llmDown 0 0 0 0 0 payloadSimple serverInit).server.metrics.count
      = serverInit.metrics.count ∧
    (∀ f, (handleChatRequest "/chat" settingsDefault pineconeEmpty noTavilyTool
        llmDown 0 0 0 0 0 payloadSimple serverInit).server.metrics.sums.get f
      = serverInit.metrics.sums.get f) ∧
    (handleChatRequest "/chat" settingsDefault pineconeEmpty noTavilyTool
        llmDown 0 0 0 0 0 payloadSimple serverInit).server.metrics.error_counts
        "/chat"
      = serverInit.metrics.error_counts "/chat" + 1 ∧
    (handleChatRequest "/chat" settingsDefault pineconeEmpty noTavilyTool
        llmDown 0 0 0 0 0 payloadSimple serverInit).server.metrics.request_counts
        "/chat"
      = serverInit.metrics.request_counts "/chat" + 1 :=
  generate_failure_effects "/chat" settingsDefault pineconeEmpty noTavilyTool
    llmDown 0 0 0 0 0 payloadSimple serverInit _
    "Upstream Groq chat completion failed. Please try again later."
    rfl rfl rfl

/-- On a cache miss with caching enabled and empty history, `/chat` runs the
pipeline once, returns the freshly built response, and leaves the entry for
the request's key — carrying that exact response — in the cache. -/
theorem chatEndpoint_miss_shape (settings : Settings)
    (graphFn : ChatInput → Except PyError ChatState) (totalMs now : ℚ)
    (payload : ChatPayload) (srv : ServerState) (st : ChatState)
    (hen : settings.CACHE_ENABLED = true)
    (hhist : payload.chat_history = [])
    (hmiss : (get_chat_cached settings.CACHE_ENABLED
        (chatKeyOf settings payload) now srv).1 = none)
    (hgraph : graphFn (initialStateOf settings payload) = .ok st) :
    (chatEndpoint settings graphFn totalMs now payload srv).result
      = .ok (buildChatResponse
          { st with timings := { st.timings with total_ms := some totalMs } }) ∧
    (chatEndpoint settings graphFn totalMs now payload srv).graphInvocations
      = 1 ∧
    (chatEndpoint settings graphFn totalMs now
        payload srv).server.chatCache.find?
        (fun e => e.key = chatKeyOf settings payload)
      = some ⟨chatKeyOf settings payload,
          buildChatResponse
            { st with
              timings := { st.timings with total_ms := some totalMs } },
          now⟩ := by
  have huc : (settings.CACHE_ENABLED && payload.chat_history.isEmpty) = true := by
    simp [hen, hhist]
  simp only [chatEndpoint, huc, if_true]
  have hmiss' : (get_chat_cached settings.CACHE_ENABLED
      ⟨pyOrS payload.«namespace» settings.PINECONE_NAMESPACE, payload.query,
        payload.top_k, payload.min_score, payload.use_web_fallback⟩
      now srv).1 = none := hmiss
  simp only [hmiss', hgraph]
  refine ⟨trivial, trivial, ?_⟩
  simp only [hen]
  exact set_chat_cached_find _ _ _ _

/-- On a cache hit with caching enabled and empty history, `/chat` serves
the stored response without running the pipeline. -/
theorem chatEndpoint_hit_shape (settings : Settings)
    (graphFn : ChatInput → Except PyError ChatState) (totalMs now : ℚ)
    (payload : ChatPayload) (srv : ServerState) (entry : ChatCacheEntry)
    (hen : settings.CACHE_ENABLED = true)
    (hhist : payload.chat_history = [])
    (hfind : srv.chatCache.find?
        (fun e => e.key = chatKeyOf settings payload) = some entry)
    (ht : now < entry.time + CHAT_TTL_SECONDS) :
    (chatEndpoint settings graphFn totalMs now payload srv).result
      = .ok entry.value ∧
    (chatEndpoint settings graphFn totalMs now payload srv).graphInvocations
      = 0 := by
  have huc : (settings.CACHE_ENABLED && payload.chat_history.isEmpty) = true := by
    simp [hen, hhist]
  have hfind' : srv.chatCache.find?
      (fun e => e.key
        = (⟨pyOrS payload.«namespace» settings.PINECONE_NAMESPACE,
            payload.query, payload.top_k, payload.min_score,
            payload.use_web_fallback⟩ : ChatKey)) = some entry := hfind
  have hlook : (get_chat_cached settings.CACHE_ENABLED
      ⟨pyOrS payload.«namespace» settings.PINECONE_NAMESPACE, payload.query,
        payload.top_k, payload.min_score, payload.use_web_fallback⟩
      now srv).1 = some entry.value := by
    unfold get_chat_cached
    simp [hen, hfind', ht]
  simp only [chatEndpoint, huc, if_true, hlook]
  exact ⟨trivial, trivial⟩

/-- C3: with caching enabled and empty conversation history, a first `/chat`
request that misses the cache runs the pipeline exactly once and stores its
response; a second identical request within the 60-second TTL is answered
with that exact cached response — identical output including the originally
recorded timings — and does not invoke the pipeline graph again. -/
theorem chat_cache_replay (settings : Settings)
    (graphFn graphFn2 : ChatInput → Except PyError ChatState)
    (totalMs1 totalMs2 now1 now2 : ℚ) (payload : ChatPayload)
    (srv : ServerState) (st : ChatState) (o1 o2 : EndpointOutcome)
    (hen : settings.CACHE_ENABLED = true)
    (hhist : payload.chat_history = [])
    (hgraph : graphFn (initialStateOf settings payload) = .ok st)
    (hmiss : (get_chat_cached settings.CACHE_ENABLED
        (chatKeyOf settings payload) now1 srv).1 = none)
    (httl : now2 < now1 + CHAT_TTL_SECONDS)
    (ho1 : chatEndpoint settings graphFn totalMs1 now1 payload srv = o1)
    (ho2 : chatEndpoint settings graphFn2 totalMs2 now2 payload o1.server
      = o2) :
    o1.graphInvocations = 1 ∧
    o1.result = .ok (buildChatResponse
      { st with timings := { st.timings with total_ms := some totalMs1 } }) ∧
    o2.graphInvocations = 0 ∧
    o2.result = o1.result := by
  obtain ⟨hres1, hinv1, hfind1⟩ := chatEndpoint_miss_shape settings graphFn
    totalMs1 now1 payload srv st hen hhist hmiss hgraph
  rw [ho1] at hres1 hinv1 hfind1
  obtain ⟨hres2, hinv2⟩ := chatEndpoint_hit_shape settings graphFn2 totalMs2
    now2 payload o1.server _ hen hhist hfind1 httl
  rw [ho2] at hres2 hinv2
  exact ⟨hinv1, hres1, hinv2, by rw [hres2, hres1]⟩

/-- A compiled-graph stand-in returning a fixed successful state. -/
def graphConstOk : ChatInput → Except PyError ChatState :=
  fun _ => .ok stateRetrievedEmpty

/-- A compiled-graph stand-in that would fail if it were ever invoked. -/
def graphUnused : ChatInput → Except PyError ChatState :=
  fun _ => .error (.other "unused")

/-- C3 witness: a concrete first call at t=0 (miss, one pipeline run) and an
identical second call at t=30s served from the cache — even though the graph
supplied to the second call would fail if executed. -/
theorem chat_cache_replay_witness :
    (chatEndpoint settingsDefault graphConstOk 1 0 payloadSimple
        serverInit).graphInvocations = 1 ∧
    (chatEndpoint settingsDefault graphConstOk 1 0 payloadSimple
        serverInit).result
      = .ok (buildChatResponse
          { stateRetrievedEmpty with
            timings := { stateRetrievedEmpty.timings with
              total_ms := some 1 } }) ∧
    (chatEndpoint settingsDefault graphUnused 2 30 payloadSimple
        (chatEndpoint settingsDefault graphConstOk 1 0 payloadSimple
          serverInit).server).graphInvocations = 0 ∧
    (chatEndpoint settingsDefault graphUnused 2 30 payloadSimple
        (chatEndpoint settingsDefault graphConstOk 1 0 payloadSimple
          serverInit).server).result
      = (chatEndpoint settingsDefault graphConstOk 1 0 payloadSimple
          serverInit).result :=
  chat_cache_replay settingsDefault graphConstOk graphUnused 1 2 0 30
    payloadSimple serverInit stateRetrievedEmpty _ _ rfl rfl rfl rfl
    (by norm_num [CHAT_TTL_SECONDS]) rfl rfl

end RagWorkbench
